import Mathlib

/-!
Verification development for `terminal_monitor.py` (srevo/sitemonitor), a
single-target console website monitor.  The Python source is shallowly
embedded: pure computations become Lean functions, the mutable
`WebsiteMonitor` object becomes an explicit `MonitorState` record threaded
through the operations, the network call of `check_website` becomes an
explicit `ProbeResult` input (the classified transport outcome), and
`sys.exit` / printing become explicit values (`Option`, `List String`).
Python floats are modelled by exact rationals; `round(x, 1)` is modelled by
round-half-to-even at one decimal, which is Python's rounding mode.
-/

namespace SiteMonitor

/-! ## Model of `urllib.parse.urlparse` (scheme and netloc only)

`validate_url` only inspects `result.scheme` and `result.netloc`, so we
embed exactly the scheme/netloc extraction of CPython's `urlsplit`:
tab/CR/LF bytes are removed; a scheme is split off at the first `:` when
the colon is not the first character, the first character is an ASCII
letter and every character before the colon is in `scheme_chars`; the
netloc is present when the remainder starts with `//` and extends to the
next `/`, `?` or `#`. -/

def scheme_chars : List Char :=
  "abcdefghijklmnopqrstuvwxyzABCDEFGHIJKLMNOPQRSTUVWXYZ0123456789+-.".toList

def isSchemeChar (c : Char) : Bool :=
  scheme_chars.contains c

/-- Remove the unsafe URL bytes `\t`, `\r`, `\n` (CPython
`_UNSAFE_URL_BYTES_TO_REMOVE`). -/
def removeUnsafe (l : List Char) : List Char :=
  l.filter (fun c => !(c = '\t' || c = '\r' || c = '\n'))

/-- Split a character list at the first `:`; returns the part before it and
`some` remainder when a colon exists (CPython `url.find(':')`). -/
def breakAtColon : List Char → List Char × Option (List Char)
  | [] => ([], none)
  | c :: cs =>
    if c = ':' then ([], some cs)
    else
      let r := breakAtColon cs
      (c :: r.1, r.2)

/-- Scheme extraction of `urlsplit`: `i = url.find(':')`; when `i > 0`,
`url[0]` is an ASCII letter and all of `url[:i]` lies in `scheme_chars`,
the scheme is `url[:i].lower()` and the rest is `url[i+1:]`; otherwise the
scheme is empty and the url is unchanged. -/
def parseScheme (url : List Char) : List Char × List Char :=
  match breakAtColon url with
  | (before, some after) =>
    if 0 < before.length ∧ (url.head?.getD ' ').isAlpha ∧ before.all isSchemeChar then
      (before.map Char.toLower, after)
    else ([], url)
  | (_, none) => ([], url)

/-- Netloc extraction of `urlsplit`: when the remainder after the scheme
starts with `//`, the netloc runs to the next `/`, `?` or `#`. -/
def parseNetloc (rest : List Char) : List Char :=
  match rest with
  | '/' :: '/' :: r => r.takeWhile (fun c => !(c = '/' || c = '?' || c = '#'))
  | _ => []

structure ParseResult where
  scheme : List Char
  netloc : List Char
deriving DecidableEq, Repr

/-- Scheme/netloc part of `urllib.parse.urlparse`. -/
def urlparseModel (u : String) : ParseResult :=
  let url := removeUnsafe u.toList
  let sr := parseScheme url
  { scheme := sr.1, netloc := parseNetloc sr.2 }

/-- First half of `WebsiteMonitor.validate_url`: if
`not urlparse(self.url).scheme`, prepend `"http://"`. -/
def normalizeScheme (u : String) : String :=
  if (urlparseModel u).scheme = [] then "http://" ++ u else u

/-- Model of `WebsiteMonitor.validate_url`: normalize the scheme, reparse,
and require both a truthy (non-empty) scheme and netloc
(`all([result.scheme, result.netloc])`).  `some u1` is the validated,
possibly rewritten `self.url`; `none` is the `sys.exit(1)` path. -/
def validate_url (u : String) : Option String :=
  let u1 := normalizeScheme u
  let r := urlparseModel u1
  if r.scheme ≠ [] ∧ r.netloc ≠ [] then some u1 else none

/-! ## Model of the run loop's termination behaviour

`WebsiteMonitor.run` is a `while self.running` loop inside
`try/except/finally`.  A tick either completes (`ok`), raises an
exception that escapes the tick (`raise`: the `except` branch prints a
loop error and sets `running = False`, so the `finally` guard
`if self.running` is false and no summary is printed), or a termination
signal is delivered (`signal`: `handle_exit` sets `running = False`,
prints the summary and calls `sys.exit(0)`; the `SystemExit` passes the
`except Exception` clause and the `finally` guard is again false).  The
process exit code is 0 on both paths.  `none` means the trace ended with
the loop still running. -/

inductive TickEvent where
  | ok
  | tickRaise
  | signal
deriving DecidableEq, Repr

structure RunResult where
  summaryPrinted : Bool
  exitCode : Nat
deriving DecidableEq, Repr

def runModel : List TickEvent → Option RunResult
  | [] => none
  | TickEvent.ok :: rest => runModel rest
  | TickEvent.tickRaise :: _ => some { summaryPrinted := false, exitCode := 0 }
  | TickEvent.signal :: _ => some { summaryPrinted := true, exitCode := 0 }

/-- Model of `main`: `WebsiteMonitor.__init__` validates the URL and exits
with code 1 (printing no summary) when validation fails; otherwise
`run()` proceeds on the given tick trace. -/
def mainModel (u : String) (events : List TickEvent) : Option RunResult :=
  match validate_url u with
  | none => some { summaryPrinted := false, exitCode := 1 }
  | some _ => runModel events

/-! ## Data model

`ProbeResult` is the classified transport outcome that the
`requests.get` call of `check_website` produces: a completed round trip
with a status code and a measured latency (`response_time_ms`, already
rounded to whole milliseconds), or one of the exception classes of the
`except` ladder.  `StatusRecord` is the dict stored in
`self.last_status` and in `self.history`.  `MonitorState` is the mutable
attribute state of a `WebsiteMonitor` object. -/

namespace Colors

def RED : String := "\x1b[91m"
def GREEN : String := "\x1b[92m"
def YELLOW : String := "\x1b[93m"

end Colors

inductive ProbeResult where
  | response (code : Nat) (lat : Nat)
  | timeout
  | connectionError
  | requestError (msg : String)
  | otherError (msg : String)
deriving DecidableEq, Repr

/-- The latency carried by an outcome: only a completed HTTP round trip
(`response`, i.e. Online or HttpError) has one. -/
def latencyOf : ProbeResult → Option Nat
  | ProbeResult.response _ lat => some lat
  | _ => none

structure StatusRecord where
  timestamp : String
  status : String
  response_time : Option Nat
  indicator : String
  color : String
deriving DecidableEq, Repr

structure MonitorState where
  url : String
  interval : Nat
  timeout : Nat
  response_times : List Nat
  success_count : Nat
  error_count : Nat
  running : Bool
  last_status : Option StatusRecord
  history : List StatusRecord
deriving DecidableEq, Repr

/-- Attribute state set by `WebsiteMonitor.__init__` after `validate_url`
succeeded (`self.history` is created lazily by `run`; it models as the
empty list). -/
def initState (url : String) (interval timeout : Nat) : MonitorState :=
  { url := url, interval := interval, timeout := timeout, response_times := [],
    success_count := 0, error_count := 0, running := true,
    last_status := none, history := [] }

/-- Model of `WebsiteMonitor.check_website`.  The network call is the
`ProbeResult` input; `timestamp` is the formatted capture time.  On a
completed round trip the latency is appended to `self.response_times`
and then the status code decides success (`< 400`) or HTTP error; each
`except` branch records a failure with no latency.  The final
`self.last_status` dict is stored and returned. -/
def check_website (st : MonitorState) (timestamp : String) (r : ProbeResult) :
    StatusRecord × MonitorState :=
  let finish := fun (status indicator color : String) (rt : Option Nat) (st1 : MonitorState) =>
    let rec0 : StatusRecord :=
      { timestamp := timestamp, status := status, response_time := rt,
        indicator := indicator, color := color }
    (rec0, { st1 with last_status := some rec0 })
  match r with
  | ProbeResult.response code lat =>
    let st1 := { st with response_times := st.response_times ++ [lat] }
    if code < 400 then
      finish ("Online (HTTP " ++ toString code ++ ")") "✓" Colors.GREEN (some lat)
        { st1 with success_count := st1.success_count + 1 }
    else
      finish ("Error (HTTP " ++ toString code ++ ")") "!" Colors.YELLOW (some lat)
        { st1 with error_count := st1.error_count + 1 }
  | ProbeResult.timeout =>
    finish "Timeout" "✗" Colors.RED none { st with error_count := st.error_count + 1 }
  | ProbeResult.connectionError =>
    finish "Connection Failed" "✗" Colors.RED none
      { st with error_count := st.error_count + 1 }
  | ProbeResult.requestError msg =>
    finish ("Request Error: " ++ msg) "✗" Colors.RED none
      { st with error_count := st.error_count + 1 }
  | ProbeResult.otherError msg =>
    finish ("Error: " ++ msg) "✗" Colors.RED none
      { st with error_count := st.error_count + 1 }

/-- State after a sequence of checks, each given by its timestamp and
classified transport outcome (the per-tick `check_website` calls of
`run`, ignoring rendering). -/
def runChecks (st : MonitorState) (ps : List (String × ProbeResult)) : MonitorState :=
  ps.foldl (fun s p => (check_website s p.1 p.2).2) st

/-! ## Statistics -/

/-- Python's `round` to the nearest integer, ties to even. -/
def pyRound (q : ℚ) : ℤ :=
  if Int.fract q < 1 / 2 then ⌊q⌋
  else if 1 / 2 < Int.fract q then ⌊q⌋ + 1
  else if ⌊q⌋ % 2 = 0 then ⌊q⌋ else ⌊q⌋ + 1

/-- Python's `round(x, 1)`: round to one decimal place, ties to even. -/
def pyRound1 (q : ℚ) : ℚ :=
  (pyRound (10 * q) : ℚ) / 10

/-- Exact value of `statistics.mean` on a list of integers. -/
def mean (l : List Nat) : ℚ :=
  (l.sum : ℚ) / (l.length : ℚ)

/-- The dict returned by `calculate_statistics` (`'min'`, `'max'`,
`'avg'` stay `None` when no latency has been recorded). -/
structure Stats where
  count : Nat
  min : Option Nat
  max : Option Nat
  avg : Option ℚ
  success_rate : ℚ
deriving DecidableEq, Repr

/-- Model of `WebsiteMonitor.calculate_statistics`.  The Python function
builds a dict with defaults `None`/`0` and overwrites entries when data
exists; the per-key end value is given directly: `min`/`max`/`avg` over
`self.response_times` when that list is non-empty, and the success rate
when at least one check was recorded. -/
def calculate_statistics (st : MonitorState) : Stats :=
  { count := st.response_times.length
    min := match st.response_times with
      | [] => none
      | t :: ts => some (ts.foldl Min.min t)
    max := match st.response_times with
      | [] => none
      | t :: ts => some (ts.foldl Max.max t)
    avg := match st.response_times with
      | [] => none
      | t :: ts => some (pyRound1 (mean (t :: ts)))
    success_rate :=
      if 0 < st.success_count + st.error_count then
        pyRound1 ((st.success_count : ℚ) /
          ((st.success_count + st.error_count : Nat) : ℚ) * 100)
      else 0 }

/-- Model of `WebsiteMonitor.print_statistics`: the lines written to the
terminal (color codes elided).  With `count == 0` the only content line
is `No data collected yet`. -/
def print_statistics (s : Stats) : List String :=
  let optNat := fun (o : Option Nat) => match o with
    | some n => toString n
    | none => "None"
  let optRat := fun (o : Option ℚ) => match o with
    | some q => toString q
    | none => "None"
  if 0 < s.count then
    ["--- Statistics ---",
     "Checks: " ++ toString s.count,
     "Success Rate: " ++ toString s.success_rate ++ "%",
     "Min Response: " ++ optNat s.min ++ " ms",
     "Max Response: " ++ optNat s.max ++ " ms",
     "Avg Response: " ++ optRat s.avg ++ " ms"]
  else
    ["--- Statistics ---", "No data collected yet"]

/-! ## History buffer and interruptible wait -/

/-- The history update at the end of a `run` tick:
`self.history.append(status_data)`, then `self.history.pop(0)` when the
length exceeds 10. -/
def pushHistory (history : List StatusRecord) (r : StatusRecord) : List StatusRecord :=
  let h := history ++ [r]
  if 10 < h.length then h.tail else h

/-- The inter-tick wait of `run`:
`for _ in range(self.interval): if not self.running: break; time.sleep(1)`.
`flagAt i` is the value of `self.running` observed by the check at the
start of iteration `i` (the signal handler may clear it between
observations); the result counts the `time.sleep(1)` calls executed.
`i` is the next iteration index, `n` the remaining range budget. -/
def waitLoop (flagAt : Nat → Bool) : Nat → Nat → Nat
  | _, 0 => 0
  | i, n + 1 => if flagAt i then waitLoop flagAt (i + 1) n + 1 else 0

/-- Number of one-second sleeps performed by the interruptible wait with
interval `interval`.  The guard `if self.running:` just before the loop
observes the flag at the same point as iteration 0's check, so it is
subsumed by `flagAt 0`. -/
def waitSleeps (interval : Nat) (flagAt : Nat → Bool) : Nat :=
  waitLoop flagAt 0 interval

/-- A concrete record used to instantiate history-buffer statements. -/
def sampleRecord (n : Nat) : StatusRecord :=
  { timestamp := toString n, status := "Timeout", response_time := none,
    indicator := "✗", color := Colors.RED }

/-- A session that has recorded exactly one failed check with no latency. -/
def c4State : MonitorState :=
  { initState "http://example.com" 5 10 with error_count := 1 }

/-- A session that has recorded latencies 100, 200, 300 ms with three
successes and two failures. -/
def c7State : MonitorState :=
  { initState "http://example.com" 5 10 with
      response_times := [100, 200, 300], success_count := 3, error_count := 2 }

/-- Rounding an integer value leaves it unchanged. -/
theorem pyRound_intCast (n : ℤ) : pyRound (n : ℚ) = n := by
  simp [pyRound, Int.fract_intCast]

/-- Rounding an integer value to one decimal leaves it unchanged. -/
theorem pyRound1_intCast (n : ℤ) : pyRound1 (n : ℚ) = (n : ℚ) := by
  have h : (10 : ℚ) * (n : ℚ) = ((10 * n : ℤ) : ℚ) := by push_cast; ring
  rw [pyRound1, h, pyRound_intCast]
  push_cast
  ring


/-! ## Step lemmas about `check_website` -/

theorem check_website_frame (st : MonitorState) (t : String) (r : ProbeResult) :
    (check_website st t r).2.history = st.history ∧
    (check_website st t r).2.url = st.url ∧
    (check_website st t r).2.interval = st.interval ∧
    (check_website st t r).2.timeout = st.timeout ∧
    (check_website st t r).2.running = st.running := by
  cases r with
  | response code lat => by_cases h : code < 400 <;> simp [check_website, h]
  | timeout => simp [check_website]
  | connectionError => simp [check_website]
  | requestError msg => simp [check_website]
  | otherError msg => simp [check_website]

theorem check_website_times (st : MonitorState) (t : String) (r : ProbeResult) :
    (check_website st t r).2.response_times = st.response_times ++ (latencyOf r).toList := by
  cases r with
  | response code lat => by_cases h : code < 400 <;> simp [check_website, latencyOf, h]
  | timeout => simp [check_website, latencyOf]
  | connectionError => simp [check_website, latencyOf]
  | requestError msg => simp [check_website, latencyOf]
  | otherError msg => simp [check_website, latencyOf]

theorem check_website_one_counter (st : MonitorState) (t : String) (r : ProbeResult) :
    ((check_website st t r).2.success_count = st.success_count + 1 ∧
      (check_website st t r).2.error_count = st.error_count) ∨
    ((check_website st t r).2.success_count = st.success_count ∧
      (check_website st t r).2.error_count = st.error_count + 1) := by
  cases r with
  | response code lat =>
    by_cases h : code < 400
    · exact Or.inl (by simp [check_website, h])
    · exact Or.inr (by simp [check_website, h])
  | timeout => exact Or.inr (by simp [check_website])
  | connectionError => exact Or.inr (by simp [check_website])
  | requestError msg => exact Or.inr (by simp [check_website])
  | otherError msg => exact Or.inr (by simp [check_website])

theorem check_website_counts (st : MonitorState) (t : String) (r : ProbeResult) :
    (check_website st t r).2.success_count + (check_website st t r).2.error_count
      = st.success_count + st.error_count + 1 := by
  rcases check_website_one_counter st t r with ⟨h1, h2⟩ | ⟨h1, h2⟩ <;> rw [h1, h2] <;> omega

theorem check_website_last (st : MonitorState) (t : String) (r : ProbeResult) :
    (check_website st t r).2.last_status = some (check_website st t r).1 := by
  cases r with
  | response code lat => by_cases h : code < 400 <;> simp [check_website, h]
  | timeout => simp [check_website]
  | connectionError => simp [check_website]
  | requestError msg => simp [check_website]
  | otherError msg => simp [check_website]

/-- A no-latency outcome is one of the `except` branches: it increments
only the error counter and leaves the latency list alone. -/
theorem check_website_noLatency (st : MonitorState) (t : String) (r : ProbeResult)
    (h : latencyOf r = none) :
    (check_website st t r).2.response_times = st.response_times ∧
    (check_website st t r).2.success_count = st.success_count ∧
    (check_website st t r).2.error_count = st.error_count + 1 := by
  cases r <;> simp [latencyOf] at h ⊢ <;> simp [check_website]

/-! ## Fold lemmas about `runChecks` -/

theorem runChecks_counts (ps : List (String × ProbeResult)) (st : MonitorState) :
    (runChecks st ps).success_count + (runChecks st ps).error_count
      = st.success_count + st.error_count + ps.length := by
  induction ps generalizing st with
  | nil => simp [runChecks]
  | cons p ps ih =>
    have h := check_website_counts st p.1 p.2
    calc (runChecks st (p :: ps)).success_count + (runChecks st (p :: ps)).error_count
        = (runChecks (check_website st p.1 p.2).2 ps).success_count
            + (runChecks (check_website st p.1 p.2).2 ps).error_count := rfl
      _ = (check_website st p.1 p.2).2.success_count
            + (check_website st p.1 p.2).2.error_count + ps.length := ih _
      _ = st.success_count + st.error_count + (p :: ps).length := by
            rw [h]; simp [List.length_cons]; omega

theorem runChecks_times (ps : List (String × ProbeResult)) (st : MonitorState) :
    (runChecks st ps).response_times
      = st.response_times ++ (ps.map (fun p => (latencyOf p.2).toList)).flatten := by
  induction ps generalizing st with
  | nil => simp [runChecks]
  | cons p ps ih =>
    calc (runChecks st (p :: ps)).response_times
        = (runChecks (check_website st p.1 p.2).2 ps).response_times := rfl
      _ = (check_website st p.1 p.2).2.response_times
            ++ (ps.map (fun p => (latencyOf p.2).toList)).flatten := ih _
      _ = _ := by rw [check_website_times]; simp

theorem runChecks_noLatency (ps : List (String × ProbeResult)) (st : MonitorState)
    (h : ∀ p ∈ ps, latencyOf p.2 = none) :
    (runChecks st ps).response_times = st.response_times ∧
    (runChecks st ps).success_count = st.success_count ∧
    (runChecks st ps).error_count = st.error_count + ps.length := by
  induction ps generalizing st with
  | nil => simp [runChecks]
  | cons p ps ih =>
    have hp := check_website_noLatency st p.1 p.2 (h p (by simp))
    have hrest := ih (check_website st p.1 p.2).2 (fun q hq => h q (by simp [hq]))
    refine ⟨?_, ?_, ?_⟩
    · rw [show (runChecks st (p :: ps)).response_times
          = (runChecks (check_website st p.1 p.2).2 ps).response_times from rfl,
        hrest.1, hp.1]
    · rw [show (runChecks st (p :: ps)).success_count
          = (runChecks (check_website st p.1 p.2).2 ps).success_count from rfl,
        hrest.2.1, hp.2.1]
    · rw [show (runChecks st (p :: ps)).error_count
          = (runChecks (check_website st p.1 p.2).2 ps).error_count from rfl,
        hrest.2.2, hp.2.2]
      simp [List.length_cons]; omega

/-! ## Bounds for rounding, list extrema and means -/

/-- Rounding to nearest (ties to even) stays inside any interval with
integer endpoints that contains the argument. -/
theorem pyRound_bounds {n m : ℤ} {q : ℚ} (hn : (n : ℚ) ≤ q) (hm : q ≤ (m : ℚ)) :
    n ≤ pyRound q ∧ pyRound q ≤ m := by
  have hfl : n ≤ ⌊q⌋ := Int.le_floor.mpr hn
  have hfu : ⌊q⌋ ≤ m := by
    have h := Int.floor_le_floor hm
    simpa using h
  have hsucc : 1 / 2 ≤ Int.fract q → ⌊q⌋ + 1 ≤ m := by
    intro hf
    rcases lt_or_eq_of_le hfu with h | h
    · omega
    · exfalso
      have h1 : Int.fract q = q - (m : ℚ) := by rw [Int.fract, h]
      have h2 : q - (m : ℚ) ≤ 0 := by linarith
      rw [h1] at hf
      linarith
  unfold pyRound
  split
  · exact ⟨hfl, hfu⟩
  · next h1 =>
    split
    · next h2 => exact ⟨by omega, hsucc (le_of_lt h2)⟩
    · next h2 =>
      have hf : 1 / 2 ≤ Int.fract q := le_of_not_lt h1
      split
      · exact ⟨hfl, hfu⟩
      · exact ⟨by omega, hsucc hf⟩

/-- One-decimal rounding stays inside any interval with integer
endpoints that contains the argument. -/
theorem pyRound1_bounds {n m : ℤ} {q : ℚ} (hn : (n : ℚ) ≤ q) (hm : q ≤ (m : ℚ)) :
    (n : ℚ) ≤ pyRound1 q ∧ pyRound1 q ≤ (m : ℚ) := by
  have h10n : ((10 * n : ℤ) : ℚ) ≤ 10 * q := by push_cast; linarith
  have h10m : 10 * q ≤ ((10 * m : ℤ) : ℚ) := by push_cast; linarith
  obtain ⟨hl, hu⟩ := pyRound_bounds h10n h10m
  unfold pyRound1
  constructor
  · rw [le_div_iff₀ (by norm_num : (0 : ℚ) < 10)]
    calc (n : ℚ) * 10 = ((10 * n : ℤ) : ℚ) := by push_cast; ring
      _ ≤ (pyRound (10 * q) : ℚ) := by exact_mod_cast hl
  · rw [div_le_iff₀ (by norm_num : (0 : ℚ) < 10)]
    calc (pyRound (10 * q) : ℚ) ≤ ((10 * m : ℤ) : ℚ) := by exact_mod_cast hu
      _ = (m : ℚ) * 10 := by push_cast; ring

/-- The running minimum (Python `min` over a non-empty list) is a lower
bound for every element. -/
theorem foldl_min_le (ts : List Nat) :
    ∀ t : Nat, ∀ x ∈ t :: ts, List.foldl Min.min t ts ≤ x := by
  induction ts with
  | nil =>
    intro t x hx
    simp only [List.mem_singleton] at hx
    subst hx
    simp
  | cons b ts ih =>
    intro t x hx
    have hmem : List.foldl Min.min (min t b) ts ≤ min t b := ih (min t b) (min t b) (by simp)
    simp only [List.foldl_cons]
    rcases List.mem_cons.mp hx with rfl | h2
    · exact le_trans hmem (min_le_left _ _)
    · rcases List.mem_cons.mp h2 with rfl | h3
      · exact le_trans hmem (min_le_right _ _)
      · exact ih (min t b) x (List.mem_cons_of_mem _ h3)

/-- The running maximum (Python `max` over a non-empty list) is an upper
bound for every element. -/
theorem le_foldl_max (ts : List Nat) :
    ∀ t : Nat, ∀ x ∈ t :: ts, x ≤ List.foldl Max.max t ts := by
  induction ts with
  | nil =>
    intro t x hx
    simp only [List.mem_singleton] at hx
    subst hx
    simp
  | cons b ts ih =>
    intro t x hx
    have hmem : max t b ≤ List.foldl Max.max (max t b) ts := ih (max t b) (max t b) (by simp)
    simp only [List.foldl_cons]
    rcases List.mem_cons.mp hx with rfl | h2
    · exact le_trans (le_max_left _ _) hmem
    · rcases List.mem_cons.mp h2 with rfl | h3
      · exact le_trans (le_max_right _ _) hmem
      · exact ih (max t b) x (List.mem_cons_of_mem _ h3)

theorem mul_length_le_sum (l : List Nat) (m : Nat) (h : ∀ x ∈ l, m ≤ x) :
    m * l.length ≤ l.sum := by
  induction l with
  | nil => simp
  | cons a l ih =>
    have ha := h a (by simp)
    have hl := ih (fun x hx => h x (List.mem_cons_of_mem _ hx))
    simp only [List.sum_cons, List.length_cons]
    calc m * (l.length + 1) = m + m * l.length := by ring
      _ ≤ a + l.sum := Nat.add_le_add ha hl

theorem sum_le_mul_length (l : List Nat) (m : Nat) (h : ∀ x ∈ l, x ≤ m) :
    l.sum ≤ m * l.length := by
  induction l with
  | nil => simp
  | cons a l ih =>
    have ha := h a (by simp)
    have hl := ih (fun x hx => h x (List.mem_cons_of_mem _ hx))
    simp only [List.sum_cons, List.length_cons]
    calc a + l.sum ≤ m + m * l.length := Nat.add_le_add ha hl
      _ = m * (l.length + 1) := by ring

/-- The arithmetic mean of a non-empty list lies between its minimum and
its maximum. -/
theorem mean_bounds (t : Nat) (ts : List Nat) :
    ((List.foldl Min.min t ts : Nat) : ℚ) ≤ mean (t :: ts) ∧
    mean (t :: ts) ≤ ((List.foldl Max.max t ts : Nat) : ℚ) := by
  have hlen : (0 : ℚ) < ((t :: ts).length : ℚ) := by
    simp only [List.length_cons]
    positivity
  have h1 : List.foldl Min.min t ts * (t :: ts).length ≤ (t :: ts).sum :=
    mul_length_le_sum _ _ (foldl_min_le ts t)
  have h2 : (t :: ts).sum ≤ List.foldl Max.max t ts * (t :: ts).length :=
    sum_le_mul_length _ _ (le_foldl_max ts t)
  constructor
  · rw [mean, le_div_iff₀ hlen]
    exact_mod_cast h1
  · rw [mean, div_le_iff₀ hlen]
    exact_mod_cast h2

/-- The exact success ratio `successes / total * 100` lies in `[0, 100]`
whenever `total > 0`. -/
theorem ratio_bounds (s e : Nat) (h : 0 < s + e) :
    ((0 : ℤ) : ℚ) ≤ (s : ℚ) / ((s + e : Nat) : ℚ) * 100 ∧
    (s : ℚ) / ((s + e : Nat) : ℚ) * 100 ≤ ((100 : ℤ) : ℚ) := by
  have hpos : (0 : ℚ) < ((s + e : Nat) : ℚ) := by exact_mod_cast h
  have hfrac : (s : ℚ) / ((s + e : Nat) : ℚ) ≤ 1 := by
    rw [div_le_one hpos]
    exact_mod_cast Nat.le_add_right s e
  have hnn : (0 : ℚ) ≤ (s : ℚ) / ((s + e : Nat) : ℚ) := by positivity
  constructor
  · have h0 : (0 : ℚ) ≤ (s : ℚ) / ((s + e : Nat) : ℚ) * 100 := by positivity
    simpa using h0
  · have h100 : (s : ℚ) / ((s + e : Nat) : ℚ) * 100 ≤ 1 * 100 :=
      mul_le_mul_of_nonneg_right hfrac (by norm_num)
    simpa using h100

theorem pyRound1_zero : pyRound1 0 = 0 := by
  simpa using pyRound1_intCast 0

/-! ## Helpers for the run loop, the wait and the history buffer -/

theorem runModel_ok_cons (l : List TickEvent) :
    runModel (TickEvent.ok :: l) = runModel l := rfl

/-- A prefix of successfully completed ticks does not change how the loop
terminates. -/
theorem runModel_ok_skip (n : Nat) (rest : List TickEvent) :
    runModel (List.replicate n TickEvent.ok ++ rest) = runModel rest := by
  induction n with
  | zero => rfl
  | succ n ih =>
    rw [List.replicate_succ, List.cons_append, runModel_ok_cons]
    exact ih

/-- With the running flag never cleared, every iteration sleeps. -/
theorem waitLoop_true (n : Nat) : ∀ i : Nat, waitLoop (fun _ => true) i n = n := by
  induction n with
  | zero => intro i; rfl
  | succ n ih => intro i; simp [waitLoop, ih]

/-- With the flag cleared from observation `s + 1` on (the stop signal
arrives during sleep number `s`), the loop executes exactly
`min n (s + 1 - i)` further sleeps from iteration `i`. -/
theorem waitLoop_stopAt (s : Nat) : ∀ n i : Nat,
    waitLoop (fun j => decide (j ≤ s)) i n = min n (s + 1 - i) := by
  intro n
  induction n with
  | zero => intro i; simp [waitLoop]
  | succ n ih =>
    intro i
    by_cases hi : i ≤ s
    · simp only [waitLoop, hi, decide_eq_true_eq, if_pos]
      rw [ih (i + 1)]
      omega
    · rw [waitLoop, if_neg (by simpa using hi)]
      omega

/-- One history push keeps the buffer within capacity 10. -/
theorem pushHistory_length (h : List StatusRecord) (r : StatusRecord)
    (hlen : h.length ≤ 10) : (pushHistory h r).length ≤ 10 := by
  simp only [pushHistory]
  split
  · simp only [List.length_tail, List.length_append, List.length_singleton]
    omega
  · next hgt =>
    simp only [List.length_append, List.length_singleton]
    simp only [not_lt, List.length_append, List.length_singleton] at hgt
    omega

/-! ## Claims -/

/-- C1, counterexample: `check_website` does not leave the shared session
state unchanged — one probe classified Online bumps the success counter
from 0 to 1 and appends its latency to the latency sequence. -/
theorem C1_counterexample :
    ¬ ((check_website (initState "http://example.com" 5 10) "00:00:00"
          (ProbeResult.response 200 50)).2.success_count
        = (initState "http://example.com" 5 10).success_count ∧
      (check_website (initState "http://example.com" 5 10) "00:00:00"
          (ProbeResult.response 200 50)).2.response_times
        = (initState "http://example.com" 5 10).response_times) := by
  decide

/-- C1 (amended): one probe leaves the history (and the rest of the
configuration) unchanged and returns the classified record (also stored in
`last_status`), but it mutates the counters and the latency sequence
itself: exactly one counter grows by one, and the latency sequence is
extended exactly by the latency the outcome carries. -/
theorem C1_probe_state_effects (st : MonitorState) (t : String) (r : ProbeResult) :
    (check_website st t r).2.history = st.history ∧
    (check_website st t r).2.url = st.url ∧
    (check_website st t r).2.interval = st.interval ∧
    (check_website st t r).2.timeout = st.timeout ∧
    (check_website st t r).2.response_times = st.response_times ++ (latencyOf r).toList ∧
    (((check_website st t r).2.success_count = st.success_count + 1 ∧
        (check_website st t r).2.error_count = st.error_count) ∨
      ((check_website st t r).2.success_count = st.success_count ∧
        (check_website st t r).2.error_count = st.error_count + 1)) ∧
    (check_website st t r).2.last_status = some (check_website st t r).1 :=
  ⟨(check_website_frame st t r).1, (check_website_frame st t r).2.1,
    (check_website_frame st t r).2.2.1, (check_website_frame st t r).2.2.2.1,
    check_website_times st t r, check_website_one_counter st t r, check_website_last st t r⟩

/-- C2, counterexample: the raw input `"not a url"` does NOT fail
validation: it is normalized to `"http://not a url"`, which parses with
scheme `"http"` and netloc `"not a url"`, both non-empty, so the monitor
proceeds into the loop and probes are attempted. -/
theorem C2_counterexample :
    validate_url "not a url" = some "http://not a url" ∧
    mainModel "not a url" [TickEvent.signal]
      = some { summaryPrinted := true, exitCode := 0 } :=
  ⟨by decide, by decide⟩

/-- C2 (amended): whenever the string after scheme-normalization lacks a
non-empty scheme or a non-empty network location, validation exits the
process with code 1 before any probe is attempted; the concrete input
`"not a url"` is not such a string (see the counterexample). -/
theorem C2_invalid_url_exits (u : String) (evs : List TickEvent)
    (h : (urlparseModel (normalizeScheme u)).scheme = [] ∨
      (urlparseModel (normalizeScheme u)).netloc = []) :
    validate_url u = none ∧
    mainModel u evs = some { summaryPrinted := false, exitCode := 1 } := by
  have hv : validate_url u = none := by
    simp only [validate_url]
    rcases h with h | h <;> simp [h]
  exact ⟨hv, by simp [mainModel, hv]⟩

/-- C2, witness: `"http://"` keeps its scheme but has an empty netloc, so
validation exits with code 1 regardless of the tick trace. -/
theorem C2_witness :
    ((urlparseModel (normalizeScheme "http://")).scheme = [] ∨
      (urlparseModel (normalizeScheme "http://")).netloc = []) ∧
    (validate_url "http://" = none ∧
      mainModel "http://" [TickEvent.ok] = some { summaryPrinted := false, exitCode := 1 }) :=
  ⟨Or.inr (by decide), C2_invalid_url_exits "http://" [TickEvent.ok] (Or.inr (by decide))⟩

/-- C3, counterexample: an unhandled exception escaping the tickboundary
after one successful iteration does NOT produce a summary: the `except`
branch clears `running`, so the `finally` guard `if self.running` skips
`print_summary`. -/
theorem C3_counterexample :
    runModel [TickEvent.ok, TickEvent.tickRaise]
      = some { summaryPrinted := false, exitCode := 0 } := rfl

/-- C3 (amended): after any number of successful iterations an unhandled
tick exception terminates the loop WITHOUT printing the summary (the
summary is printed only on the signal path, by `handle_exit`); after an
immediate configuration failure no summary is printed either and the
process exits with code 1. -/
theorem C3_summary_on_termination (n : Nat) (u : String) (evs : List TickEvent)
    (h : validate_url u = none) :
    runModel (List.replicate n TickEvent.ok ++ [TickEvent.tickRaise])
      = some { summaryPrinted := false, exitCode := 0 } ∧
    runModel (List.replicate n TickEvent.ok ++ [TickEvent.signal])
      = some { summaryPrinted := true, exitCode := 0 } ∧
    mainModel u evs = some { summaryPrinted := false, exitCode := 1 } := by
  refine ⟨?_, ?_, ?_⟩
  · rw [runModel_ok_skip]; rfl
  · rw [runModel_ok_skip]; rfl
  · simp [mainModel, h]

/-- C3, witness: one successful iteration followed by a tick exception,
the signal path, and the configuration-failure path, all at concrete
inputs. -/
theorem C3_witness :
    validate_url "http://" = none ∧
    (runModel (List.replicate 1 TickEvent.ok ++ [TickEvent.tickRaise])
        = some { summaryPrinted := false, exitCode := 0 } ∧
      runModel (List.replicate 1 TickEvent.ok ++ [TickEvent.signal])
        = some { summaryPrinted := true, exitCode := 0 } ∧
      mainModel "http://" [] = some { summaryPrinted := false, exitCode := 1 }) :=
  ⟨by decide, C3_summary_on_termination 1 "http://" [] (by decide)⟩

/-- C4, counterexample: a session with one recorded failure and no
successes has success rate 0 although a check has been recorded, so the
rate is not 0 *exactly* when no checks were recorded. -/
theorem C4_counterexample :
    (calculate_statistics c4State).success_rate = 0 ∧
    c4State.success_count + c4State.error_count ≠ 0 := by
  constructor
  · have harg : ((c4State.success_count : ℚ) /
        ((c4State.success_count + c4State.error_count : Nat) : ℚ) * 100) = 0 := by
      simp [c4State, initState]
    simp only [calculate_statistics]
    rw [if_pos (by simp [c4State, initState]), harg, pyRound1_zero]
  · decide

/-- C4 (amended): the success rate always lies in `[0, 100]`, and it is 0
whenever no checks have been recorded; the converse fails (see the
counterexample): an all-failure session also has rate 0. -/
theorem C4_success_rate_range (st : MonitorState) :
    0 ≤ (calculate_statistics st).success_rate ∧
    (calculate_statistics st).success_rate ≤ 100 ∧
    (st.success_count + st.error_count = 0 → (calculate_statistics st).success_rate = 0) := by
  by_cases h : 0 < st.success_count + st.error_count
  · have hr := ratio_bounds st.success_count st.error_count h
    have hb := pyRound1_bounds hr.1 hr.2
    refine ⟨?_, ?_, fun h0 => absurd h0 (by omega)⟩
    · simp only [calculate_statistics]
      rw [if_pos h]
      exact_mod_cast hb.1
    · simp only [calculate_statistics]
      rw [if_pos h]
      exact_mod_cast hb.2
  · have h0 : (calculate_statistics st).success_rate = 0 := by
      simp only [calculate_statistics]
      rw [if_neg h]
    exact ⟨by rw [h0], by rw [h0]; norm_num, fun _ => h0⟩

/-- C4, witness: the bounds and the zero case at the freshly initialized
session. -/
theorem C4_witness :
    0 ≤ (calculate_statistics (initState "http://example.com" 5 10)).success_rate ∧
    (calculate_statistics (initState "http://example.com" 5 10)).success_rate ≤ 100 ∧
    ((initState "http://example.com" 5 10).success_count
        + (initState "http://example.com" 5 10).error_count = 0 →
      (calculate_statistics (initState "http://example.com" 5 10)).success_rate = 0) :=
  C4_success_rate_range (initState "http://example.com" 5 10)

/-- C5: every probe classification increments exactly one of the two
counters by exactly one, and over any sequence of checks starting from a
fresh session, successes plus failures equals the number of checks. -/
theorem C5_success_plus_failure (st : MonitorState) (t : String) (r : ProbeResult)
    (u : String) (iv tm : Nat) (ps : List (String × ProbeResult)) :
    (((check_website st t r).2.success_count = st.success_count + 1 ∧
        (check_website st t r).2.error_count = st.error_count) ∨
      ((check_website st t r).2.success_count = st.success_count ∧
        (check_website st t r).2.error_count = st.error_count + 1)) ∧
    (runChecks (initState u iv tm) ps).success_count
        + (runChecks (initState u iv tm) ps).error_count = ps.length := by
  refine ⟨check_website_one_counter st t r, ?_⟩
  have h := runChecks_counts ps (initState u iv tm)
  simpa [initState] using h

/-- C6: the statistics count equals the length of the latency sequence;
one check appends to the latency sequence exactly the latency the outcome
carries (so only completed round trips contribute); a 404 response counts
as a failure yet still appends its latency; timeouts, connection
failures, request errors and unknown errors carry no latency. -/
theorem C6_latency_only_on_round_trip (st : MonitorState) (t : String) (r : ProbeResult)
    (lat : Nat) :
    (calculate_statistics st).count = st.response_times.length ∧
    (check_website st t r).2.response_times = st.response_times ++ (latencyOf r).toList ∧
    (check_website st t (ProbeResult.response 404 lat)).2.response_times
      = st.response_times ++ [lat] ∧
    (check_website st t (ProbeResult.response 404 lat)).2.error_count = st.error_count + 1 ∧
    (check_website st t (ProbeResult.response 404 lat)).2.success_count = st.success_count ∧
    latencyOf ProbeResult.timeout = none ∧
    latencyOf ProbeResult.connectionError = none ∧
    latencyOf (ProbeResult.requestError t) = none ∧
    latencyOf (ProbeResult.otherError t) = none := by
  refine ⟨by simp [calculate_statistics], check_website_times st t r, ?_, ?_, ?_, rfl, rfl,
    rfl, rfl⟩ <;> simp [check_website]

/-- C7: for a non-empty latency sequence the reported min, max and avg are
all present, the exact arithmetic mean lies between min and max, and the
one-decimal rounded avg also lies in `[min, max]`. -/
theorem C7_min_mean_max (st : MonitorState) (t : Nat) (ts : List Nat)
    (h : st.response_times = t :: ts) :
    ∃ mn mx : Nat, ∃ av : ℚ,
      (calculate_statistics st).min = some mn ∧
      (calculate_statistics st).max = some mx ∧
      (calculate_statistics st).avg = some av ∧
      (mn : ℚ) ≤ mean st.response_times ∧ mean st.response_times ≤ (mx : ℚ) ∧
      (mn : ℚ) ≤ av ∧ av ≤ (mx : ℚ) := by
  obtain ⟨h1, h2⟩ := mean_bounds t ts
  have hav := pyRound1_bounds (n := ((List.foldl Min.min t ts : ℕ) : ℤ))
    (m := ((List.foldl Max.max t ts : ℕ) : ℤ)) (q := mean (t :: ts))
    (by rw [Int.cast_natCast]; exact h1) (by rw [Int.cast_natCast]; exact h2)
  refine ⟨List.foldl Min.min t ts, List.foldl Max.max t ts, pyRound1 (mean (t :: ts)),
    ?_, ?_, ?_, ?_, ?_, ?_, ?_⟩
  · simp [calculate_statistics, h]
  · simp [calculate_statistics, h]
  · simp [calculate_statistics, h]
  · rw [h]; exact h1
  · rw [h]; exact h2
  · have hc := hav.1
    rwa [Int.cast_natCast] at hc
  · have hc := hav.2
    rwa [Int.cast_natCast] at hc

/-- C7, witness: the bounds at the session with latencies 100, 200,
300 ms. -/
theorem C7_witness :
    c7State.response_times = 100 :: [200, 300] ∧
    (∃ mn mx : Nat, ∃ av : ℚ,
      (calculate_statistics c7State).min = some mn ∧
      (calculate_statistics c7State).max = some mx ∧
      (calculate_statistics c7State).avg = some av ∧
      (mn : ℚ) ≤ mean c7State.response_times ∧ mean c7State.response_times ≤ (mx : ℚ) ∧
      (mn : ℚ) ≤ av ∧ av ≤ (mx : ℚ)) :=
  ⟨rfl, C7_min_mean_max c7State 100 [200, 300] rfl⟩

/-- C8: one push never grows the history beyond 10 records, and pushing
11 records into an empty buffer leaves exactly the 2nd through 11th in
their original order, the first being evicted (absent whenever it is not
duplicated among the others). -/
theorem C8_history_capacity (h : List StatusRecord) (r : StatusRecord)
    (r1 r2 r3 r4 r5 r6 r7 r8 r9 r10 r11 : StatusRecord)
    (hlen : h.length ≤ 10)
    (hne : r1 ∉ [r2, r3, r4, r5, r6, r7, r8, r9, r10, r11]) :
    (pushHistory h r).length ≤ 10 ∧
    List.foldl pushHistory [] [r1, r2, r3, r4, r5, r6, r7, r8, r9, r10, r11]
      = [r2, r3, r4, r5, r6, r7, r8, r9, r10, r11] ∧
    r1 ∉ List.foldl pushHistory [] [r1, r2, r3, r4, r5, r6, r7, r8, r9, r10, r11] := by
  have hfold : List.foldl pushHistory ([] : List StatusRecord)
      [r1, r2, r3, r4, r5, r6, r7, r8, r9, r10, r11]
      = [r2, r3, r4, r5, r6, r7, r8, r9, r10, r11] := by
    simp [pushHistory, List.foldl]
  exact ⟨pushHistory_length h r hlen, hfold, by rw [hfold]; exact hne⟩

/-- C8, witness: the capacity bound and the eviction shape at eleven
concrete, pairwise distinct records. -/
theorem C8_witness :
    (([] : List StatusRecord).length ≤ 10 ∧
      sampleRecord 1 ∉ [sampleRecord 2, sampleRecord 3, sampleRecord 4, sampleRecord 5,
        sampleRecord 6, sampleRecord 7, sampleRecord 8, sampleRecord 9, sampleRecord 10,
        sampleRecord 11]) ∧
    ((pushHistory [] (sampleRecord 0)).length ≤ 10 ∧
      List.foldl pushHistory [] [sampleRecord 1, sampleRecord 2, sampleRecord 3,
        sampleRecord 4, sampleRecord 5, sampleRecord 6, sampleRecord 7, sampleRecord 8,
        sampleRecord 9, sampleRecord 10, sampleRecord 11]
        = [sampleRecord 2, sampleRecord 3, sampleRecord 4, sampleRecord 5, sampleRecord 6,
          sampleRecord 7, sampleRecord 8, sampleRecord 9, sampleRecord 10, sampleRecord 11] ∧
      sampleRecord 1 ∉ List.foldl pushHistory [] [sampleRecord 1, sampleRecord 2,
        sampleRecord 3, sampleRecord 4, sampleRecord 5, sampleRecord 6, sampleRecord 7,
        sampleRecord 8, sampleRecord 9, sampleRecord 10, sampleRecord 11]) :=
  ⟨⟨by decide, by decide⟩,
    C8_history_capacity [] (sampleRecord 0) (sampleRecord 1) (sampleRecord 2)
      (sampleRecord 3) (sampleRecord 4) (sampleRecord 5) (sampleRecord 6) (sampleRecord 7)
      (sampleRecord 8) (sampleRecord 9) (sampleRecord 10) (sampleRecord 11)
      (by decide) (by decide)⟩

/-- C9: the inter-tick wait checks the running flag before each 1-second
sleep: with the flag never cleared it sleeps exactly `interval` seconds
in 1-second increments, and when the stop arrives during sleep number
`s` (so the flag reads false from check `s + 1` on) it executes exactly
`min interval (s + 1)` sleeps — at most one further second elapses after
the stop before the loop observes it. -/
theorem C9_interruptible_wait (interval s : Nat) :
    waitSleeps interval (fun _ => true) = interval ∧
    waitSleeps interval (fun i => decide (i ≤ s)) = min interval (s + 1) := by
  constructor
  · exact waitLoop_true interval 0
  · have h := waitLoop_stopAt s interval 0
    simpa [waitSleeps] using h

/-- C10: a session whose recorded outcomes all carried no latency has
`count = 0` with min, max and avg absent, the display falls back to the
no-data line, all such outcomes were failures, and the success rate is
still a defined 0 (computed from the failure counter), not undefined. -/
theorem C10_no_latency_stats (u : String) (iv tm : Nat) (ps : List (String × ProbeResult))
    (h : ∀ p ∈ ps, latencyOf p.2 = none) :
    (calculate_statistics (runChecks (initState u iv tm) ps)).count = 0 ∧
    (calculate_statistics (runChecks (initState u iv tm) ps)).min = none ∧
    (calculate_statistics (runChecks (initState u iv tm) ps)).max = none ∧
    (calculate_statistics (runChecks (initState u iv tm) ps)).avg = none ∧
    print_statistics (calculate_statistics (runChecks (initState u iv tm) ps))
      = ["--- Statistics ---", "No data collected yet"] ∧
    (runChecks (initState u iv tm) ps).success_count = 0 ∧
    (runChecks (initState u iv tm) ps).error_count = ps.length ∧
    (ps ≠ [] → (calculate_statistics (runChecks (initState u iv tm) ps)).success_rate = 0) := by
  obtain ⟨ht, hs, he⟩ := runChecks_noLatency ps (initState u iv tm) h
  have ht0 : (runChecks (initState u iv tm) ps).response_times = [] := by
    simpa [initState] using ht
  have hs0 : (runChecks (initState u iv tm) ps).success_count = 0 := by
    simpa [initState] using hs
  have he0 : (runChecks (initState u iv tm) ps).error_count = ps.length := by
    simpa [initState] using he
  refine ⟨?_, ?_, ?_, ?_, ?_, hs0, he0, ?_⟩
  · simp [calculate_statistics, ht0]
  · simp [calculate_statistics, ht0]
  · simp [calculate_statistics, ht0]
  · simp [calculate_statistics, ht0]
  · simp [print_statistics, calculate_statistics, ht0]
  · intro hne
    have harg : (((runChecks (initState u iv tm) ps).success_count : ℚ) /
        (((runChecks (initState u iv tm) ps).success_count
          + (runChecks (initState u iv tm) ps).error_count : Nat) : ℚ) * 100) = 0 := by
      rw [hs0]
      norm_num
    simp only [calculate_statistics]
    have hlen : 0 < ps.length := List.length_pos.mpr hne
    rw [if_pos (by rw [hs0, he0]; omega), harg, pyRound1_zero]

/-- C10, witness: a session of one timeout and one connection failure. -/
theorem C10_witness :
    (∀ p ∈ ([("t1", ProbeResult.timeout), ("t2", ProbeResult.connectionError)] :
        List (String × ProbeResult)), latencyOf p.2 = none) ∧
    ((calculate_statistics (runChecks (initState "http://example.com" 5 10)
        [("t1", ProbeResult.timeout), ("t2", ProbeResult.connectionError)])).count = 0 ∧
      (calculate_statistics (runChecks (initState "http://example.com" 5 10)
        [("t1", ProbeResult.timeout), ("t2", ProbeResult.connectionError)])).min = none ∧
      (calculate_statistics (runChecks (initState "http://example.com" 5 10)
        [("t1", ProbeResult.timeout), ("t2", ProbeResult.connectionError)])).max = none ∧
      (calculate_statistics (runChecks (initState "http://example.com" 5 10)
        [("t1", ProbeResult.timeout), ("t2", ProbeResult.connectionError)])).avg = none ∧
      print_statistics (calculate_statistics (runChecks (initState "http://example.com" 5 10)
        [("t1", ProbeResult.timeout), ("t2", ProbeResult.connectionError)]))
        = ["--- Statistics ---", "No data collected yet"] ∧
      (runChecks (initState "http://example.com" 5 10)
        [("t1", ProbeResult.timeout), ("t2", ProbeResult.connectionError)]).success_count = 0 ∧
      (runChecks (initState "http://example.com" 5 10)
        [("t1", ProbeResult.timeout), ("t2", ProbeResult.connectionError)]).error_count
        = ([("t1", ProbeResult.timeout), ("t2", ProbeResult.connectionError)] :
            List (String × ProbeResult)).length ∧
      (([("t1", ProbeResult.timeout), ("t2", ProbeResult.connectionError)] :
          List (String × ProbeResult)) ≠ [] →
        (calculate_statistics (runChecks (initState "http://example.com" 5 10)
          [("t1", ProbeResult.timeout), ("t2", ProbeResult.connectionError)])).success_rate
          = 0)) :=
  ⟨by decide, C10_no_latency_stats "http://example.com" 5 10
    [("t1", ProbeResult.timeout), ("t2", ProbeResult.connectionError)] (by decide)⟩

end SiteMonitor
